import Mathlib

/-!
Shallow embedding of the efis-editor local-file persistence layer
(src/model/storage/local-file-storage.ts) and of the checklist command bar
component (ChecklistCommandBarComponent).

The TypeScript service is asynchronous and talks to browser-provided
surfaces (window pickers, DOM input elements, codec objects). We model one
call by passing in an environment record that fixes the outcome of every
external await the call can perform (picker resolution, file read, codec
encode and decode, stream writes). Thrown errors are values of type `Err`
carrying the JavaScript error name; the distinguished cancellation signal
is the error named AbortError. A call that can throw returns
`Except Err _`; a call that catches everything returns a plain value.
The single piece of mutable state, the private `_currentFileHandle` field,
is threaded explicitly as an `Option FileHandle`.
-/

set_option autoImplicit false

deriving instance DecidableEq for Except

namespace EfisEditor

/-- Presence flags for the two picker entry points checked on the global
window object (the in-operator tests of `isFileSystemAccessSupported`). -/
structure Window where
  showOpenFilePicker : Bool
  showSaveFilePicker : Bool
deriving DecidableEq

/-- An opaque FileSystemFileHandle: all the code reads from it is its name. -/
structure FileHandle where
  name : String
deriving DecidableEq

/-- Opaque contents of a picked File object. -/
structure FileData where
  content : String
deriving DecidableEq

/-- A thrown JavaScript error, identified by its `name` property, which is
all the catch clauses inspect. -/
structure Err where
  name : String
deriving DecidableEq

/-- A named blob as produced by the JSON codec `fromProto`. -/
structure Blob where
  name : String
deriving DecidableEq

/-- The `metadata` record of a checklist file, as far as this service reads
it (only the `name` field, for the suggested save filename). -/
structure ChecklistMetadata where
  name : String
deriving DecidableEq

/-- An in-memory checklist document; `metadata` is optional because the
code accesses it with the `?.` operator. -/
structure ChecklistFile where
  metadata : Option ChecklistMetadata
deriving DecidableEq

/-- The event through which the hidden fallback input element resolves:
either its change handler fires (with an optional first selected file,
mirroring `input.files?.[0]`), or its cancel handler fires. -/
inductive FallbackOpenEvent where
  | change (file : Option FileData)
  | cancel
deriving DecidableEq

/-- Outcomes of every external await a single `openFile` call can perform. -/
structure OpenEnv where
  window : Option Window
  openPickerResult : Except Err FileHandle
  getFileResult : Except Err FileData
  toProtoResult : Except Err ChecklistFile
  fallbackEvent : FallbackOpenEvent
deriving DecidableEq

/-- Outcomes of every external await a single `saveFile` call can perform. -/
structure SaveEnv where
  window : Option Window
  savePickerResult : Except Err FileHandle
  createWritableResult : Except Err Unit
  fromProtoResult : Except Err Blob
  arrayBufferResult : Except Err Unit
  writeResult : Except Err Unit
  closeResult : Except Err Unit
deriving DecidableEq

/-- The catch clauses test `error.name === "AbortError"`. -/
def isAbort (e : Err) : Bool :=
  e.name = "AbortError"

/-- `isFileSystemAccessSupported`: false with no window object (SSR),
otherwise true when both picker entry points are present on window. -/
def isFileSystemAccessSupported (window : Option Window) : Bool :=
  match window with
  | none => false
  | some w => w.showOpenFilePicker && w.showSaveFilePicker

/-- The observable outcome of one `openFile` call: its returned value (or
escaped exception), the `_currentFileHandle` field afterwards, and the
errors written to the console log. -/
structure OpenOutcome where
  result : Except Err (Option ChecklistFile)
  handle : Option FileHandle
  logged : List Err
deriving DecidableEq

/-- The catch clause of `_openFileWithFSA`: AbortError becomes a normal
null result, anything else is rethrown; the handle keeps whatever value
the try block left in it. -/
def catchOpen (e : Err) (handle : Option FileHandle) : OpenOutcome :=
  if isAbort e then ⟨Except.ok none, handle, []⟩ else ⟨Except.error e, handle, []⟩

/-- `_openFileWithFSA`: show the open picker; on success store the picked
handle in `_currentFileHandle`, then read the file and decode it via the
JSON codec. Any throw inside the try block reaches the single catch. -/
def openFileWithFSA (s : Option FileHandle) (env : OpenEnv) : OpenOutcome :=
  match env.openPickerResult with
  | Except.error e => catchOpen e s
  | Except.ok fileHandle =>
    match env.getFileResult with
    | Except.error e => catchOpen e (some fileHandle)
    | Except.ok _file =>
      match env.toProtoResult with
      | Except.error e => catchOpen e (some fileHandle)
      | Except.ok cf => ⟨Except.ok (some cf), some fileHandle, []⟩

/-- `_openFileWithFallback`: a hidden input element; change with a file
decodes it (decode failure is logged and resolves null), change with no
file or cancel resolve null. The promise only ever resolves, so the
result is never an error, and `_currentFileHandle` is never touched. -/
def openFileWithFallback (s : Option FileHandle) (env : OpenEnv) : OpenOutcome :=
  match env.fallbackEvent with
  | FallbackOpenEvent.cancel => ⟨Except.ok none, s, []⟩
  | FallbackOpenEvent.change none => ⟨Except.ok none, s, []⟩
  | FallbackOpenEvent.change (some _file) =>
    match env.toProtoResult with
    | Except.ok cf => ⟨Except.ok (some cf), s, []⟩
    | Except.error e => ⟨Except.ok none, s, [e]⟩

/-- `openFile`: dispatch on capability detection. -/
def openFile (s : Option FileHandle) (env : OpenEnv) : OpenOutcome :=
  if isFileSystemAccessSupported env.window then openFileWithFSA s env
  else openFileWithFallback s env

/-- The observable outcome of one `saveFile` call: returned value (or
escaped exception), the `_currentFileHandle` field afterwards, whether the
save picker was shown (and with which suggested name), the handle the
write phase targeted, the filename of a triggered download, and the
console log. -/
structure SaveOutcome where
  result : Except Err Bool
  handle : Option FileHandle
  prompted : Bool
  suggestedName : Option String
  wroteTo : Option FileHandle
  download : Option String
  logged : List Err
deriving DecidableEq

/-- The suggested filename passed to the save picker:
`checklistFile.metadata?.name || "checklist"` with a `.json` suffix
(the JavaScript or-operator also replaces an empty name). -/
def suggestedSaveName (checklistFile : ChecklistFile) : String :=
  (match checklistFile.metadata with
   | some m => if m.name = "" then "checklist" else m.name
   | none => "checklist") ++ ".json"

/-- The catch clause of `_saveFileWithFSA`: AbortError becomes false,
anything else is rethrown; mutations made before the throw persist. -/
def catchSave (e : Err) (handle : Option FileHandle) (prompted : Bool)
    (suggestedName : Option String) (wroteTo : Option FileHandle) : SaveOutcome :=
  if isAbort e then ⟨Except.ok false, handle, prompted, suggestedName, wroteTo, none, []⟩
  else ⟨Except.error e, handle, prompted, suggestedName, wroteTo, none, []⟩

/-- The write phase of `_saveFileWithFSA` (lines 138 to 147): the guard
that throws when no handle is available, then createWritable, encode,
arrayBuffer, write and close in order, each await able to throw into the
same catch. `s` is the `_currentFileHandle` value at this point. -/
def saveWritePhase (fileHandle : Option FileHandle) (s : Option FileHandle)
    (prompted : Bool) (suggestedName : Option String) (env : SaveEnv) : SaveOutcome :=
  match fileHandle with
  | none => catchSave ⟨"Error"⟩ s prompted suggestedName none
  | some h =>
    match env.createWritableResult with
    | Except.error e => catchSave e s prompted suggestedName (some h)
    | Except.ok _ =>
      match env.fromProtoResult with
      | Except.error e => catchSave e s prompted suggestedName (some h)
      | Except.ok _blob =>
        match env.arrayBufferResult with
        | Except.error e => catchSave e s prompted suggestedName (some h)
        | Except.ok _ =>
          match env.writeResult with
          | Except.error e => catchSave e s prompted suggestedName (some h)
          | Except.ok _ =>
            match env.closeResult with
            | Except.error e => catchSave e s prompted suggestedName (some h)
            | Except.ok _ =>
              ⟨Except.ok true, s, prompted, suggestedName, some h, none, []⟩

/-- `_saveFileWithFSA`: start from the stored handle; when `saveAs` is set
or no handle is stored, show the save picker and store the chosen handle
before writing; then run the write phase. Cancelling the picker is caught
before the stored handle is touched. -/
def saveFileWithFSA (s : Option FileHandle) (checklistFile : ChecklistFile)
    (saveAs : Bool) (env : SaveEnv) : SaveOutcome :=
  if saveAs || s.isNone then
    match env.savePickerResult with
    | Except.error e => catchSave e s true (some (suggestedSaveName checklistFile)) none
    | Except.ok fileHandle =>
      saveWritePhase (some fileHandle) (some fileHandle) true
        (some (suggestedSaveName checklistFile)) env
  else
    saveWritePhase s s false none env

/-- `_saveFileWithFallback`: encode via the JSON codec and trigger a
download named after the blob; every throw is caught, logged and turned
into a false result. The stored handle is never touched. -/
def saveFileWithFallback (s : Option FileHandle) (_checklistFile : ChecklistFile)
    (env : SaveEnv) : SaveOutcome :=
  match env.fromProtoResult with
  | Except.ok blob => ⟨Except.ok true, s, false, none, none, some blob.name, []⟩
  | Except.error e => ⟨Except.ok false, s, false, none, none, none, [e]⟩

/-- `saveFile`: dispatch on capability detection (`saveAs` defaults to
false at the TypeScript call sites). -/
def saveFile (s : Option FileHandle) (checklistFile : ChecklistFile)
    (saveAs : Bool) (env : SaveEnv) : SaveOutcome :=
  if isFileSystemAccessSupported env.window then
    saveFileWithFSA s checklistFile saveAs env
  else
    saveFileWithFallback s checklistFile env

/-- `clearFileHandle`: unconditionally discard the stored handle. -/
def clearFileHandle (_s : Option FileHandle) : Option FileHandle :=
  none

/-- `hasFileHandle`: whether a current handle is stored. -/
def hasFileHandle (s : Option FileHandle) : Bool :=
  s.isSome

/-- `getCurrentFileName`: the stored handle name, if any; never prompts. -/
def getCurrentFileName (s : Option FileHandle) : Option String :=
  s.map FileHandle.name

/-! ### CommandBar

`ChecklistCommandBarComponent.onNewFile` and `onDeleteFile` await a dialog
and conditionally emit an output event. The dialog results are inputs; the
returned option is the emitted event payload (none when nothing is
emitted). `promptForTitle` yields a string or an undefined result, and the
emission is gated by JavaScript truthiness (`if (title)`), which rejects
both undefined and the empty string; `confirmDeletion` yields a boolean or
an undefined result and the component emits the literal true only when the
dialog resolved to true. -/

/-- `onNewFile`: emit `newFile` with the prompted title when it is truthy. -/
def onNewFile (title : Option String) : Option String :=
  match title with
  | some t => if t = "" then none else some t
  | none => none

/-- `onDeleteFile`: emit `deleteFile` with value true when the
confirmation dialog resolved to true. -/
def onDeleteFile (confirmed : Option Bool) : Option Bool :=
  match confirmed with
  | some true => some true
  | _ => none

/-! ### Operation sequences

A trace is a list of calls on one LocalFileStorage instance, each with its
environment; the stored handle starts absent and is threaded through. -/

/-- One call on the service, with the outcomes of its external awaits. -/
inductive Op where
  | openOp (env : OpenEnv)
  | saveOp (checklistFile : ChecklistFile) (saveAs : Bool) (env : SaveEnv)
  | clearOp
deriving DecidableEq

/-- The value a call returned to (or threw at) its caller. -/
inductive OpResult where
  | openR (r : Except Err (Option ChecklistFile))
  | saveR (r : Except Err Bool)
  | clearR
deriving DecidableEq

/-- Run one call against the stored handle. -/
def stepOp (s : Option FileHandle) : Op → OpResult × Option FileHandle
  | Op.openOp env =>
    let o := openFile s env
    (OpResult.openR o.result, o.handle)
  | Op.saveOp checklistFile saveAs env =>
    let o := saveFile s checklistFile saveAs env
    (OpResult.saveR o.result, o.handle)
  | Op.clearOp => (OpResult.clearR, clearFileHandle s)

/-- Run a sequence of calls, collecting each result in order. -/
def runOps (s : Option FileHandle) : List Op → List OpResult × Option FileHandle
  | [] => ([], s)
  | op :: rest =>
    let (r, s1) := stepOp s op
    let (rs, s2) := runOps s1 rest
    (r :: rs, s2)

/-- Whether a call is an openFile or saveFile call. -/
def isFileOp : Op → Bool
  | Op.clearOp => false
  | _ => true

/-- Whether a call succeeded: openFile returned a document, saveFile
returned true. -/
def opSucceeded : OpResult → Bool
  | OpResult.openR (Except.ok (some _)) => true
  | OpResult.saveR (Except.ok true) => true
  | _ => false

/-- Whether a call took the native File System Access strategy. -/
def opUsedNative : Op → Bool
  | Op.openOp env => isFileSystemAccessSupported env.window
  | Op.saveOp _ _ env => isFileSystemAccessSupported env.window
  | Op.clearOp => false

/-- The last openFile or saveFile call of a trace, paired with its result
(the results list must be the one produced by `runOps`). -/
def lastFileOp (ops : List Op) (rs : List OpResult) : Option (Op × OpResult) :=
  ((ops.zip rs).filter fun p => isFileOp p.1).getLast?

/-- Claim C1 as stated: over every sequence of operations from the initial
state, a stored handle implies that the most recent openFile or saveFile
call both succeeded and used the native strategy. -/
def C1Claim : Prop :=
  ∀ ops : List Op,
    hasFileHandle (runOps none ops).2 = true →
    ∃ p : Op × OpResult,
      lastFileOp ops (runOps none ops).1 = some p ∧
      opSucceeded p.2 = true ∧ opUsedNative p.1 = true

/-- The handle a native picker interaction of this call would store: for
openFile the open picker result; for saveFile the save picker result when
the picker is consulted (saveAs set, or no stored handle); nothing under
the fallback strategy or for clearFileHandle. -/
def nativePickSucceeded (s : Option FileHandle) : Op → Option FileHandle
  | Op.openOp env =>
    if isFileSystemAccessSupported env.window then
      match env.openPickerResult with
      | Except.ok h => some h
      | Except.error _ => none
    else none
  | Op.saveOp _ saveAs env =>
    if isFileSystemAccessSupported env.window && (saveAs || s.isNone) then
      match env.savePickerResult with
      | Except.ok h => some h
      | Except.error _ => none
    else none
  | Op.clearOp => none

/-- Claim C5 as stated: after clearFileHandle, every saveFile call (under
either strategy, for every document and saveAs flag) presents the save
location picker. -/
def C5Claim : Prop :=
  ∀ (s0 : Option FileHandle) (checklistFile : ChecklistFile) (saveAs : Bool) (env : SaveEnv),
    (saveFile (clearFileHandle s0) checklistFile saveAs env).prompted = true

/-! ### Concrete instances used by counterexamples and witnesses -/

/-- A window exposing both picker entry points. -/
def fullWindow : Window := ⟨true, true⟩

/-- A sample handle named trip.json. -/
def tripHandle : FileHandle := ⟨"trip.json"⟩

/-- A sample document named trip. -/
def tripDoc : ChecklistFile := ⟨some ⟨"trip"⟩⟩

/-- A decode failure that is not the cancellation signal. -/
def typeErr : Err := ⟨"TypeError"⟩

/-- The cancellation signal raised by a dismissed picker. -/
def abortErr : Err := ⟨"AbortError"⟩

/-- Native open environment in which the picker succeeds but decoding the
picked file fails. -/
def envOpenDecodeFail : OpenEnv :=
  ⟨some fullWindow, Except.ok tripHandle, Except.ok ⟨"junk"⟩, Except.error typeErr,
    FallbackOpenEvent.cancel⟩

/-- Native open environment in which the user cancels the open picker. -/
def envOpenCancel : OpenEnv :=
  ⟨some fullWindow, Except.error abortErr, Except.ok ⟨""⟩, Except.ok tripDoc,
    FallbackOpenEvent.cancel⟩

/-- Native open environment in which opening trip.json fully succeeds. -/
def envOpenOk : OpenEnv :=
  ⟨some fullWindow, Except.ok tripHandle, Except.ok ⟨"trip"⟩, Except.ok tripDoc,
    FallbackOpenEvent.cancel⟩

/-- Fallback open environment (no window) in which the selected file fails
to decode. -/
def envOpenFallbackBad : OpenEnv :=
  ⟨none, Except.error abortErr, Except.ok ⟨"junk"⟩, Except.error typeErr,
    FallbackOpenEvent.change (some ⟨"junk"⟩)⟩

/-- Native save environment in which every step succeeds, the picker
granting trip.json. -/
def envSaveOk : SaveEnv :=
  ⟨some fullWindow, Except.ok tripHandle, Except.ok (), Except.ok ⟨"trip.json"⟩,
    Except.ok (), Except.ok (), Except.ok ()⟩

/-- Native save environment in which the user cancels the save picker. -/
def envSaveCancel : SaveEnv :=
  ⟨some fullWindow, Except.error abortErr, Except.ok (), Except.ok ⟨"trip.json"⟩,
    Except.ok (), Except.ok (), Except.ok ()⟩

/-- Fallback save environment (no window) in which encoding succeeds. -/
def envSaveFallbackOk : SaveEnv :=
  ⟨none, Except.error abortErr, Except.ok (), Except.ok ⟨"trip.json"⟩,
    Except.ok (), Except.ok (), Except.ok ()⟩

/-- Fallback save environment (no window) in which encoding fails. -/
def envSaveFallbackBad : SaveEnv :=
  ⟨none, Except.error abortErr, Except.ok (), Except.error typeErr,
    Except.ok (), Except.ok (), Except.ok ()⟩

/-! ### Helper lemmas about the branches of each operation -/

theorem catchOpen_handle (e : Err) (s : Option FileHandle) :
    (catchOpen e s).handle = s := by
  unfold catchOpen; split <;> rfl

theorem catchOpen_logged (e : Err) (s : Option FileHandle) :
    (catchOpen e s).logged = [] := by
  unfold catchOpen; split <;> rfl

theorem catchSave_handle (e : Err) (s : Option FileHandle) (p : Bool)
    (n : Option String) (w : Option FileHandle) :
    (catchSave e s p n w).handle = s := by
  unfold catchSave; split <;> rfl

theorem catchSave_prompted (e : Err) (s : Option FileHandle) (p : Bool)
    (n : Option String) (w : Option FileHandle) :
    (catchSave e s p n w).prompted = p := by
  unfold catchSave; split <;> rfl

theorem openFileWithFallback_handle (s : Option FileHandle) (env : OpenEnv) :
    (openFileWithFallback s env).handle = s := by
  unfold openFileWithFallback
  cases env.fallbackEvent with
  | cancel => rfl
  | change f =>
    cases f with
    | none => rfl
    | some d => cases env.toProtoResult <;> rfl

theorem saveFileWithFallback_handle (s : Option FileHandle) (cf : ChecklistFile)
    (env : SaveEnv) : (saveFileWithFallback s cf env).handle = s := by
  unfold saveFileWithFallback
  cases env.fromProtoResult <;> rfl

theorem saveFileWithFallback_prompted (s : Option FileHandle) (cf : ChecklistFile)
    (env : SaveEnv) : (saveFileWithFallback s cf env).prompted = false := by
  unfold saveFileWithFallback
  cases env.fromProtoResult <;> rfl

theorem saveFileWithFallback_wroteTo (s : Option FileHandle) (cf : ChecklistFile)
    (env : SaveEnv) : (saveFileWithFallback s cf env).wroteTo = none := by
  unfold saveFileWithFallback
  cases env.fromProtoResult <;> rfl

theorem openFileWithFSA_handle_picker_error (s : Option FileHandle) (env : OpenEnv)
    (e : Err) (hp : env.openPickerResult = Except.error e) :
    (openFileWithFSA s env).handle = s := by
  unfold openFileWithFSA
  rw [hp]
  exact catchOpen_handle e s

theorem openFileWithFSA_handle_picker_ok (s : Option FileHandle) (env : OpenEnv)
    (h : FileHandle) (hp : env.openPickerResult = Except.ok h) :
    (openFileWithFSA s env).handle = some h := by
  unfold openFileWithFSA
  rw [hp]
  cases env.getFileResult with
  | error e => exact catchOpen_handle e (some h)
  | ok f =>
    cases env.toProtoResult with
    | error e => exact catchOpen_handle e (some h)
    | ok cf => rfl

theorem saveWritePhase_handle (fh s : Option FileHandle) (p : Bool)
    (n : Option String) (env : SaveEnv) :
    (saveWritePhase fh s p n env).handle = s := by
  unfold saveWritePhase
  cases fh with
  | none => exact catchSave_handle _ _ _ _ _
  | some h =>
    cases env.createWritableResult with
    | error e => exact catchSave_handle _ _ _ _ _
    | ok u =>
      cases env.fromProtoResult with
      | error e => exact catchSave_handle _ _ _ _ _
      | ok b =>
        cases env.arrayBufferResult with
        | error e => exact catchSave_handle _ _ _ _ _
        | ok v =>
          cases env.writeResult with
          | error e => exact catchSave_handle _ _ _ _ _
          | ok w =>
            cases env.closeResult with
            | error e => exact catchSave_handle _ _ _ _ _
            | ok x => rfl

theorem saveWritePhase_prompted (fh s : Option FileHandle) (p : Bool)
    (n : Option String) (env : SaveEnv) :
    (saveWritePhase fh s p n env).prompted = p := by
  unfold saveWritePhase
  cases fh with
  | none => exact catchSave_prompted _ _ _ _ _
  | some h =>
    cases env.createWritableResult with
    | error e => exact catchSave_prompted _ _ _ _ _
    | ok u =>
      cases env.fromProtoResult with
      | error e => exact catchSave_prompted _ _ _ _ _
      | ok b =>
        cases env.arrayBufferResult with
        | error e => exact catchSave_prompted _ _ _ _ _
        | ok v =>
          cases env.writeResult with
          | error e => exact catchSave_prompted _ _ _ _ _
          | ok w =>
            cases env.closeResult with
            | error e => exact catchSave_prompted _ _ _ _ _
            | ok x => rfl

theorem saveWritePhase_all_ok (h : FileHandle) (s : Option FileHandle) (p : Bool)
    (n : Option String) (env : SaveEnv) (b : Blob)
    (h1 : env.createWritableResult = Except.ok ())
    (h2 : env.fromProtoResult = Except.ok b)
    (h3 : env.arrayBufferResult = Except.ok ())
    (h4 : env.writeResult = Except.ok ())
    (h5 : env.closeResult = Except.ok ()) :
    saveWritePhase (some h) s p n env =
      ⟨Except.ok true, s, p, n, some h, none, []⟩ := by
  unfold saveWritePhase
  rw [h1, h2, h3, h4, h5]

/-! ### Claim theorems -/

/-- C8: isFileSystemAccessSupported returns false for every environment
lacking the required picker globals (no window object, or either picker
entry point absent from it) and true exactly when both are present on
window; it is a pure function of the environment, so repeated calls in an
unchanged environment return the same result. -/
theorem c8_capability_detection (w : Option Window) :
    isFileSystemAccessSupported w = true ↔
      ∃ win : Window, w = some win ∧
        win.showOpenFilePicker = true ∧ win.showSaveFilePicker = true := by
  cases w with
  | none => simp [isFileSystemAccessSupported]
  | some win =>
    simp [isFileSystemAccessSupported, Bool.and_eq_true]

/-- C9: onNewFile emits the newFile event carrying the prompted title
exactly when that title is truthy (present and non-empty); a cancelled or
empty dialog emits nothing. onDeleteFile emits deleteFile with value true
exactly when the confirmation dialog resolved to true. -/
theorem c9_dialog_gated_emissions (title : Option String) (confirmed : Option Bool) :
    (∀ t : String, onNewFile title = some t ↔ (title = some t ∧ t ≠ "")) ∧
    onDeleteFile confirmed = (if confirmed = some true then some true else none) := by
  constructor
  · intro t
    cases title with
    | none => simp [onNewFile]
    | some u =>
      constructor
      · intro h
        simp only [onNewFile] at h
        by_cases hu : u = ""
        · rw [if_pos hu] at h
          exact absurd h (by simp)
        · rw [if_neg hu] at h
          have hut : u = t := Option.some.inj h
          exact ⟨h, fun ht => hu (hut.trans ht)⟩
      · rintro ⟨h1, h2⟩
        have hut : u = t := Option.some.inj h1
        have hu : ¬u = "" := fun he => h2 (hut.symm.trans he)
        simp only [onNewFile]
        rw [if_neg hu]
        exact h1
  · cases confirmed with
    | none => simp [onDeleteFile]
    | some b => cases b <;> simp [onDeleteFile]

/-- C2: when the user cancels a picker (it rejects with the AbortError
signal), openFile resolves to the null result without touching the stored
handle, and saveFile resolves to false; no exception escapes either call. -/
theorem c2_picker_cancellation (sO : Option FileHandle) (envO : OpenEnv)
    (sS : Option FileHandle) (checklistFile : ChecklistFile) (saveAs : Bool)
    (envS : SaveEnv) (e eS : Err) :
    (isFileSystemAccessSupported envO.window = true →
      envO.openPickerResult = Except.error e → isAbort e = true →
      (openFile sO envO).result = Except.ok none ∧ (openFile sO envO).handle = sO) ∧
    (isFileSystemAccessSupported envS.window = true →
      (saveAs = true ∨ sS = none) →
      envS.savePickerResult = Except.error eS → isAbort eS = true →
      (saveFile sS checklistFile saveAs envS).result = Except.ok false) := by
  constructor
  · intro hsup hpick habort
    simp [openFile, hsup, openFileWithFSA, hpick, catchOpen, habort]
  · intro hsup hcond hpick habort
    have hguard : (saveAs || sS.isNone) = true := by
      rcases hcond with h | h <;> simp [h]
    simp [saveFile, hsup, saveFileWithFSA, hguard, hpick, catchSave, habort]

/-- Witness for C2 at concrete inputs: a cancelled open picker with a
handle already stored, and a cancelled save picker with no handle. -/
theorem c2_picker_cancellation_witness :
    (openFile (some tripHandle) envOpenCancel).result = Except.ok none ∧
    (openFile (some tripHandle) envOpenCancel).handle = some tripHandle ∧
    (saveFile none tripDoc false envSaveCancel).result = Except.ok false := by
  have H := c2_picker_cancellation (some tripHandle) envOpenCancel none tripDoc false
    envSaveCancel abortErr abortErr
  exact ⟨(H.1 rfl rfl rfl).1, (H.1 rfl rfl rfl).2, H.2 rfl (Or.inr rfl) rfl rfl⟩

/-- C3: under the native strategy, saveFile with saveAs set always shows
the save picker, whatever the stored handle, and a successful selection
replaces the stored handle with the newly chosen one. -/
theorem c3_save_as_always_prompts (s : Option FileHandle)
    (checklistFile : ChecklistFile) (env : SaveEnv) :
    isFileSystemAccessSupported env.window = true →
    (saveFile s checklistFile true env).prompted = true ∧
    (∀ h : FileHandle, env.savePickerResult = Except.ok h →
      (saveFile s checklistFile true env).handle = some h) := by
  intro hsup
  constructor
  · simp only [saveFile, hsup, if_true, saveFileWithFSA, Bool.true_or, if_pos]
    cases env.savePickerResult with
    | error e => exact catchSave_prompted _ _ _ _ _
    | ok h => exact saveWritePhase_prompted _ _ _ _ _
  · intro h hp
    simp only [saveFile, hsup, if_true, saveFileWithFSA, Bool.true_or, if_pos, hp]
    exact saveWritePhase_handle _ _ _ _ _

/-- Witness for C3: with trip.json already stored, saveAs prompts anyway
and the picked handle replaces the stored one. -/
theorem c3_save_as_always_prompts_witness :
    (saveFile (some ⟨"old.json"⟩) tripDoc true envSaveOk).prompted = true ∧
    (saveFile (some ⟨"old.json"⟩) tripDoc true envSaveOk).handle = some tripHandle := by
  have H := c3_save_as_always_prompts (some ⟨"old.json"⟩) tripDoc envSaveOk rfl
  exact ⟨H.1, H.2 tripHandle rfl⟩

/-- C10: cancelling the save picker during a native saveFile leaves the
stored handle exactly as it was, for every prior state and saveAs value,
and the call returns false. -/
theorem c10_save_cancel_preserves_handle (s : Option FileHandle)
    (checklistFile : ChecklistFile) (saveAs : Bool) (env : SaveEnv) (e : Err) :
    isFileSystemAccessSupported env.window = true →
    (saveAs = true ∨ s = none) →
    env.savePickerResult = Except.error e →
    isAbort e = true →
    (saveFile s checklistFile saveAs env).handle = s ∧
    (saveFile s checklistFile saveAs env).result = Except.ok false := by
  intro hsup hcond hpick habort
  have hguard : (saveAs || s.isNone) = true := by
    rcases hcond with h | h <;> simp [h]
  simp [saveFile, hsup, saveFileWithFSA, hguard, hpick, catchSave, habort]

/-- Witness for C10: a save-as cancellation with trip.json stored keeps
trip.json stored and returns false. -/
theorem c10_save_cancel_preserves_handle_witness :
    (saveFile (some tripHandle) tripDoc true envSaveCancel).handle = some tripHandle ∧
    (saveFile (some tripHandle) tripDoc true envSaveCancel).result = Except.ok false :=
  c10_save_cancel_preserves_handle (some tripHandle) tripDoc true envSaveCancel abortErr
    rfl (Or.inl rfl) rfl rfl

/-- C6: with the File System Access capability absent, saveFile encodes
via the JSON codec and triggers a download named after the codec blob,
returning true; when encoding fails it logs the error and returns false
instead of throwing; in either case no file handle is ever stored. -/
theorem c6_fallback_save (s : Option FileHandle) (checklistFile : ChecklistFile)
    (saveAs : Bool) (env : SaveEnv) :
    isFileSystemAccessSupported env.window = false →
    (saveFile s checklistFile saveAs env).handle = s ∧
    (saveFile s checklistFile saveAs env).prompted = false ∧
    (∀ b : Blob, env.fromProtoResult = Except.ok b →
      (saveFile s checklistFile saveAs env).result = Except.ok true ∧
      (saveFile s checklistFile saveAs env).download = some b.name ∧
      (saveFile s checklistFile saveAs env).logged = []) ∧
    (∀ e : Err, env.fromProtoResult = Except.error e →
      (saveFile s checklistFile saveAs env).result = Except.ok false ∧
      (saveFile s checklistFile saveAs env).download = none ∧
      (saveFile s checklistFile saveAs env).logged = [e]) := by
  intro hsup
  refine ⟨?_, ?_, ?_, ?_⟩
  · simp only [saveFile, hsup, Bool.false_eq_true, if_false]
    exact saveFileWithFallback_handle _ _ _
  · simp only [saveFile, hsup, Bool.false_eq_true, if_false]
    exact saveFileWithFallback_prompted _ _ _
  · intro b hb
    simp [saveFile, hsup, saveFileWithFallback, hb]
  · intro e he
    simp [saveFile, hsup, saveFileWithFallback, he]

/-- Witness for C6: with no window, saving the trip document downloads
trip.json and returns true, leaving the absent handle absent; with a
failing encoder it logs and returns false. -/
theorem c6_fallback_save_witness :
    (saveFile none tripDoc false envSaveFallbackOk).handle = none ∧
    (saveFile none tripDoc false envSaveFallbackOk).result = Except.ok true ∧
    (saveFile none tripDoc false envSaveFallbackOk).download = some "trip.json" ∧
    (saveFile none tripDoc false envSaveFallbackBad).result = Except.ok false ∧
    (saveFile none tripDoc false envSaveFallbackBad).logged = [typeErr] := by
  have H1 := c6_fallback_save none tripDoc false envSaveFallbackOk rfl
  have H2 := c6_fallback_save none tripDoc false envSaveFallbackBad rfl
  exact ⟨H1.1, (H1.2.2.1 ⟨"trip.json"⟩ rfl).1, (H1.2.2.1 ⟨"trip.json"⟩ rfl).2.1,
    (H2.2.2.2 typeErr rfl).1, (H2.2.2.2 typeErr rfl).2.2⟩

/-- C7: with the File System Access capability absent, a selected file
that fails JSON decoding makes openFile resolve to the null result, the
decode error is logged, and no exception escapes (the outcome is an ok
value, and the stored handle is untouched). -/
theorem c7_fallback_decode_failure (s : Option FileHandle) (env : OpenEnv)
    (f : FileData) (e : Err) :
    isFileSystemAccessSupported env.window = false →
    env.fallbackEvent = FallbackOpenEvent.change (some f) →
    env.toProtoResult = Except.error e →
    (openFile s env).result = Except.ok none ∧
    (openFile s env).logged = [e] ∧
    (openFile s env).handle = s := by
  intro hsup hev hdec
  simp [openFile, hsup, openFileWithFallback, hev, hdec]

/-- Witness for C7: a fallback open of an undecodable file resolves to
null and logs the decode error. -/
theorem c7_fallback_decode_failure_witness :
    (openFile none envOpenFallbackBad).result = Except.ok none ∧
    (openFile none envOpenFallbackBad).logged = [typeErr] ∧
    (openFile none envOpenFallbackBad).handle = none :=
  c7_fallback_decode_failure none envOpenFallbackBad ⟨"junk"⟩ typeErr rfl rfl rfl

/-- C4: under the native strategy a successful openFile stores the picked
handle as current, and a subsequent saveFile without saveAs writes to that
same handle without presenting any save picker. -/
theorem c4_open_then_save_reuses_handle (s : Option FileHandle) (envO : OpenEnv)
    (checklistFile : ChecklistFile) (envS : SaveEnv) (h : FileHandle)
    (cf : ChecklistFile) (b : Blob) :
    isFileSystemAccessSupported envO.window = true →
    envO.openPickerResult = Except.ok h →
    (openFile s envO).result = Except.ok (some cf) →
    isFileSystemAccessSupported envS.window = true →
    envS.createWritableResult = Except.ok () →
    envS.fromProtoResult = Except.ok b →
    envS.arrayBufferResult = Except.ok () →
    envS.writeResult = Except.ok () →
    envS.closeResult = Except.ok () →
    (openFile s envO).handle = some h ∧
    (saveFile (openFile s envO).handle checklistFile false envS).prompted = false ∧
    (saveFile (openFile s envO).handle checklistFile false envS).wroteTo = some h ∧
    (saveFile (openFile s envO).handle checklistFile false envS).result = Except.ok true := by
  intro hsupO hpick _hres hsupS h1 h2 h3 h4 h5
  have hh : (openFile s envO).handle = some h := by
    simp only [openFile, hsupO, if_true]
    exact openFileWithFSA_handle_picker_ok s envO h hpick
  have hsave : saveFile (some h) checklistFile false envS =
      ⟨Except.ok true, some h, false, none, some h, none, []⟩ := by
    simp only [saveFile, hsupS, if_true, saveFileWithFSA, Bool.false_or,
      Option.isNone_some, Bool.false_eq_true, if_false]
    exact saveWritePhase_all_ok h (some h) false none envS b h1 h2 h3 h4 h5
  rw [hh]
  exact ⟨rfl, by rw [hsave], by rw [hsave], by rw [hsave]⟩

/-- Witness for C4: opening trip.json stores its handle, and a plain save
afterwards writes to it with no picker. -/
theorem c4_open_then_save_reuses_handle_witness :
    (openFile none envOpenOk).handle = some tripHandle ∧
    (saveFile (openFile none envOpenOk).handle tripDoc false envSaveOk).prompted = false ∧
    (saveFile (openFile none envOpenOk).handle tripDoc false envSaveOk).wroteTo = some tripHandle ∧
    (saveFile (openFile none envOpenOk).handle tripDoc false envSaveOk).result = Except.ok true :=
  c4_open_then_save_reuses_handle none envOpenOk tripDoc envSaveOk tripHandle tripDoc
    ⟨"trip.json"⟩ rfl rfl rfl rfl rfl rfl rfl rfl rfl

/-- C5 counterexample: with the File System Access capability absent, a
saveFile call after clearFileHandle triggers the download fallback and
never presents a save-location picker, so the claim as stated (every
subsequent saveFile call prompts) is false. -/
theorem c5_counterexample : ¬C5Claim := by
  intro hc
  exact absurd (hc none tripDoc false envSaveFallbackOk) (by decide)

/-- C5 (amended): after clearFileHandle, every subsequent saveFile under
the native strategy presents the save-location picker; under the fallback
strategy no picker is presented and no retained handle is written to (the
save becomes a download or a logged failure). -/
theorem c5_amended_prompt_behavior (s0 : Option FileHandle)
    (checklistFile : ChecklistFile) (saveAs : Bool) (env : SaveEnv) :
    (isFileSystemAccessSupported env.window = true →
      (saveFile (clearFileHandle s0) checklistFile saveAs env).prompted = true) ∧
    (isFileSystemAccessSupported env.window = false →
      (saveFile (clearFileHandle s0) checklistFile saveAs env).prompted = false ∧
      (saveFile (clearFileHandle s0) checklistFile saveAs env).wroteTo = none) := by
  constructor
  · intro hsup
    simp only [clearFileHandle, saveFile, hsup, if_true, saveFileWithFSA,
      Option.isNone_none, Bool.or_true, if_pos]
    cases env.savePickerResult with
    | error e => exact catchSave_prompted _ _ _ _ _
    | ok h => exact saveWritePhase_prompted _ _ _ _ _
  · intro hsup
    simp only [clearFileHandle, saveFile, hsup, Bool.false_eq_true, if_false]
    exact ⟨saveFileWithFallback_prompted _ _ _, saveFileWithFallback_wroteTo _ _ _⟩

/-- Witness for C5 (amended): after clearing, a native save prompts and a
fallback save does not. -/
theorem c5_amended_prompt_behavior_witness :
    (saveFile (clearFileHandle (some tripHandle)) tripDoc false envSaveOk).prompted = true ∧
    (saveFile (clearFileHandle (some tripHandle)) tripDoc false envSaveFallbackOk).prompted = false :=
  ⟨(c5_amended_prompt_behavior (some tripHandle) tripDoc false envSaveOk).1 rfl,
    ((c5_amended_prompt_behavior (some tripHandle) tripDoc false envSaveFallbackOk).2 rfl).1⟩

/-- C1 counterexample: in the trace consisting of one native openFile call
whose picker succeeds but whose decode then fails, a handle is held
afterwards although the most recent openFile call did not succeed (it
rethrew the decode error), so the claim as stated is false. -/
theorem c1_counterexample : ¬C1Claim := by
  intro hclaim
  obtain ⟨p, hp, hs, -⟩ := hclaim [Op.openOp envOpenDecodeFail] rfl
  rw [show lastFileOp [Op.openOp envOpenDecodeFail]
      (runOps none [Op.openOp envOpenDecodeFail]).1 =
      some (Op.openOp envOpenDecodeFail, OpResult.openR (Except.error typeErr)) from rfl] at hp
  injection hp with hpe
  rw [← hpe] at hs
  exact absurd hs (by decide)

/-- C1 (amended): a stored handle only ever changes through a native
open/save whose picker succeeded (it then holds exactly the picked
handle), or through clearFileHandle; in particular the fallback paths
never set or change it. The enclosing call may nevertheless fail after
the picker succeeds (decode or write errors), so a held handle does not
imply that the most recent open/save call succeeded. -/
theorem c1_amended_handle_provenance (s : Option FileHandle) (op : Op) :
    ((stepOp s op).2 = s ∨ op = Op.clearOp ∨
      ∃ h : FileHandle, (stepOp s op).2 = some h ∧ nativePickSucceeded s op = some h) ∧
    (opUsedNative op = false → (stepOp s op).2 = s ∨ op = Op.clearOp) := by
  constructor
  · cases op with
    | clearOp => exact Or.inr (Or.inl rfl)
    | openOp env =>
      by_cases hsup : isFileSystemAccessSupported env.window = true
      · cases hpick : env.openPickerResult with
        | error e =>
          refine Or.inl ?_
          show (openFile s env).handle = s
          simp only [openFile, hsup, if_true]
          exact openFileWithFSA_handle_picker_error s env e hpick
        | ok h =>
          refine Or.inr (Or.inr ⟨h, ?_, ?_⟩)
          · show (openFile s env).handle = some h
            simp only [openFile, hsup, if_true]
            exact openFileWithFSA_handle_picker_ok s env h hpick
          · simp only [nativePickSucceeded, hsup, if_true, hpick]
      · have hsup2 : isFileSystemAccessSupported env.window = false := by
          simpa using hsup
        refine Or.inl ?_
        show (openFile s env).handle = s
        simp only [openFile, hsup2, Bool.false_eq_true, if_false]
        exact openFileWithFallback_handle s env
    | saveOp cf saveAs env =>
      by_cases hsup : isFileSystemAccessSupported env.window = true
      · by_cases hguard : (saveAs || s.isNone) = true
        · cases hpick : env.savePickerResult with
          | error e =>
            refine Or.inl ?_
            show (saveFile s cf saveAs env).handle = s
            simp only [saveFile, hsup, if_true, saveFileWithFSA, hguard, if_pos, hpick]
            exact catchSave_handle _ _ _ _ _
          | ok h =>
            refine Or.inr (Or.inr ⟨h, ?_, ?_⟩)
            · show (saveFile s cf saveAs env).handle = some h
              simp only [saveFile, hsup, if_true, saveFileWithFSA, hguard, if_pos, hpick]
              exact saveWritePhase_handle _ _ _ _ _
            · simp only [nativePickSucceeded, hsup, hguard, Bool.true_and,
                Bool.and_self, if_true, hpick]
        · have hguard2 : (saveAs || s.isNone) = false := by
            cases hg : (saveAs || s.isNone) with
            | false => rfl
            | true => exact absurd hg hguard
          refine Or.inl ?_
          show (saveFile s cf saveAs env).handle = s
          simp only [saveFile, hsup, if_true, saveFileWithFSA, hguard2,
            Bool.false_eq_true, if_false]
          exact saveWritePhase_handle _ _ _ _ _
      · have hsup2 : isFileSystemAccessSupported env.window = false := by
          simpa using hsup
        refine Or.inl ?_
        show (saveFile s cf saveAs env).handle = s
        simp only [saveFile, hsup2, Bool.false_eq_true, if_false]
        exact saveFileWithFallback_handle _ _ _
  · intro hnat
    cases op with
    | clearOp => exact Or.inr rfl
    | openOp env =>
      refine Or.inl ?_
      show (openFile s env).handle = s
      have hsup2 : isFileSystemAccessSupported env.window = false := hnat
      simp only [openFile, hsup2, Bool.false_eq_true, if_false]
      exact openFileWithFallback_handle s env
    | saveOp cf saveAs env =>
      refine Or.inl ?_
      show (saveFile s cf saveAs env).handle = s
      have hsup2 : isFileSystemAccessSupported env.window = false := hnat
      simp only [saveFile, hsup2, Bool.false_eq_true, if_false]
      exact saveFileWithFallback_handle _ _ _

/-- Witness for C1 (amended): a fallback save with a handle stored leaves
the handle untouched. -/
theorem c1_amended_handle_provenance_witness :
    (stepOp (some tripHandle) (Op.saveOp tripDoc false envSaveFallbackOk)).2 = some tripHandle ∨
    Op.saveOp tripDoc false envSaveFallbackOk = Op.clearOp :=
  (c1_amended_handle_provenance (some tripHandle)
    (Op.saveOp tripDoc false envSaveFallbackOk)).2 rfl

end EfisEditor
